import Mathlib

/-!
Shallow embedding of the Fluid-Simulation crate (src/lib.rs, src/utils.rs).

Rust `f64` values are modelled as rationals (`ℚ`); `u16` arithmetic is
modelled as natural-number arithmetic reduced modulo 2^16 (release-mode
wrapping semantics), with a separate checked variant where a claim speaks
about aborts.  Rust `Vec<f64>` buffers are modelled as `List ℚ`; an
in-bounds read `v[i]` becomes `List.getD i 0`, an in-bounds write becomes
`List.set`.  Operations whose Rust counterpart can panic on an
out-of-range index additionally get an `Option`-valued model.
-/

namespace FluidSim

/-- `u16` wrapping addition (Rust release-mode `+` on `u16`). -/
def add16 (a b : ℕ) : ℕ := (a + b) % 65536

/-- `u16` wrapping multiplication (Rust release-mode `*` on `u16`). -/
def mul16 (a b : ℕ) : ℕ := (a * b) % 65536

/-- `u16` checked addition (Rust debug-mode `+`): `none` models the abort. -/
def add16? (a b : ℕ) : Option ℕ := if a + b < 65536 then some (a + b) else none

/-- `u16` checked multiplication (Rust debug-mode `*`): `none` models the abort. -/
def mul16? (a b : ℕ) : Option ℕ := if a * b < 65536 then some (a * b) else none

/-- `utils.rs`: `struct DiffLinearEquationArgs { value: f64, k: f64 }`. -/
structure DiffLinearEquationArgs where
  value : ℚ
  k : ℚ
deriving Repr

/-- `utils.rs`: constructor `DiffLinearEquationArgs::new`. -/
def DiffLinearEquationArgs.new (value k : ℚ) : DiffLinearEquationArgs :=
  ⟨value, k⟩

/-- `utils.rs`: `val_after_diff(surrounding_property_values, args)`; note the
division of the neighbour sum by `4.0` before it is scaled by `k`. -/
def val_after_diff (surrounding_property_values : List ℚ)
    (args : DiffLinearEquationArgs) : ℚ :=
  (args.value
    + (args.k
        * (surrounding_property_values.getD 0 0
          + surrounding_property_values.getD 1 0
          + surrounding_property_values.getD 2 0
          + surrounding_property_values.getD 3 0))
      / 4)
  / (1 + args.k)

/-- `utils.rs`: `struct GaussSeidelFunction<T>` packaging a `LinearEquation<T>`
function pointer (field name `funciton` is the source's spelling) with its
argument value. -/
structure GaussSeidelFunction (T : Type) where
  funciton : List ℚ → T → ℚ
  args : T

/-- `utils.rs`: constructor `GaussSeidelFunction::new`. -/
def GaussSeidelFunction.new {T : Type} (funciton : List ℚ → T → ℚ) (args : T) :
    GaussSeidelFunction T :=
  ⟨funciton, args⟩

/-- `utils.rs`: `GaussSeidelFunction::call(&self, vs)` applies the stored
function pointer to the current unknown vector and the stored args. -/
def GaussSeidelFunction.call {T : Type} (g : GaussSeidelFunction T)
    (vs : List ℚ) : ℚ :=
  g.funciton vs g.args

/-- One execution of the inner `for (index, _) in initial_values.iter().enumerate()`
loop body of `gauss_seidel`: update slot `index` in place from the vector's
current contents.  (`functions[index]` panics in Rust when `index` is out of
range; the `Option.getD` default never fires at the lengths the program uses.) -/
def gaussSeidelUpdate {T : Type} (functions : List (GaussSeidelFunction T))
    (acc : List ℚ) (index : ℕ) : List ℚ :=
  acc.set index (((functions.get? index).map (fun g => g.call acc)).getD 0)

/-- One full sweep of `gauss_seidel`'s inner loop over indices
`0, 1, …, m-1` (where `m` is the length of the original `initial_values`). -/
def gaussSeidelSweep {T : Type} (functions : List (GaussSeidelFunction T))
    (m : ℕ) (acc : List ℚ) : List ℚ :=
  (List.range m).foldl (gaussSeidelUpdate functions) acc

/-- `utils.rs`: `gauss_seidel(functions, initial_values, iter)`: clone the
initial values, then run exactly `iter` sweeps, each updating the unknowns
in place sequentially in index order. -/
def gauss_seidel {T : Type} (functions : List (GaussSeidelFunction T))
    (initial_values : List ℚ) (iter : ℕ) : List ℚ :=
  (gaussSeidelSweep functions initial_values.length)^[iter] initial_values

/-- `lib.rs`: `struct FluidConfig { n: u16, diffusion: f64 }`. -/
structure FluidConfig where
  n : ℕ
  diffusion : ℚ

/-- `lib.rs`: `FluidConfig::new`. -/
def FluidConfig.new (n : ℕ) (diffusion : ℚ) : FluidConfig :=
  ⟨n, diffusion⟩

/-- `lib.rs`: `struct Fluid` with its six field buffers. -/
structure Fluid where
  config : FluidConfig
  dt : ℚ
  velocity_x : List ℚ
  velocity_y : List ℚ
  initial_velocity_x : List ℚ
  initial_velocity_y : List ℚ
  density : List ℚ
  initial_density : List ℚ
  size : ℕ

/-- `lib.rs`: `Fluid::new` — `size = (n+2)*(n+2)` in `u16` arithmetic,
six zero-filled buffers of that length, `dt = 0.1`. -/
def Fluid.new (config : FluidConfig) : Fluid :=
  let size := mul16 (add16 config.n 2) (add16 config.n 2)
  { config := config
    dt := 1 / 10
    velocity_x := List.replicate size 0
    velocity_y := List.replicate size 0
    initial_velocity_x := List.replicate size 0
    initial_velocity_y := List.replicate size 0
    density := List.replicate size 0
    initial_density := List.replicate size 0
    size := size }

/-- `Fluid::new`'s size computation under checked (debug) `u16` semantics:
`none` models the arithmetic-overflow abort. -/
def sizeChecked (n : ℕ) : Option ℕ :=
  match add16? n 2 with
  | none => none
  | some m => mul16? m m

/-- `lib.rs`: `Fluid::ix(x, y) = x + (self.config.n + 2) * y` in `u16`
arithmetic (standalone form, parameterized by `config.n`). -/
def ix (n x y : ℕ) : ℕ := add16 x (mul16 (add16 n 2) y)

/-- `lib.rs`: method form of `ix`. -/
def Fluid.ix (f : Fluid) (x y : ℕ) : ℕ := FluidSim.ix f.config.n x y

/-- `u16` wrapping subtraction (Rust release-mode `-` on `u16`), used for the
`x - 1` / `y - 1` neighbour coordinates in `Fluid::diffuse`. -/
def sub16 (a b : ℕ) : ℕ := (a + (65536 - b % 65536)) % 65536

/-- The four per-neighbour equations `Fluid::diffuse` hands to `gauss_seidel`:
each is `val_after_diff` packaged with `DiffLinearEquationArgs` holding the
source field's value at one neighbour — east `(x+1,y)`, west `(x-1,y)`,
south `(x,y+1)`, north `(x,y-1)` — and `k = dt * diffusion`. -/
def Fluid.diffuse_equations (f : Fluid) (x y : ℕ) (property : List ℚ) :
    List (GaussSeidelFunction DiffLinearEquationArgs) :=
  let k := f.dt * f.config.diffusion
  [GaussSeidelFunction.new val_after_diff
    (DiffLinearEquationArgs.new (property.getD (f.ix (add16 x 1) y) 0) k),
   GaussSeidelFunction.new val_after_diff
    (DiffLinearEquationArgs.new (property.getD (f.ix (sub16 x 1) y) 0) k),
   GaussSeidelFunction.new val_after_diff
    (DiffLinearEquationArgs.new (property.getD (f.ix x (add16 y 1)) 0) k),
   GaussSeidelFunction.new val_after_diff
    (DiffLinearEquationArgs.new (property.getD (f.ix x (sub16 y 1)) 0) k)]

/-- `lib.rs`: `Fluid::diffuse(x, y, property)` — solve the 4-equation
neighbour system with `gauss_seidel` from `[0,0,0,0]` for 10 iterations,
then apply `val_after_diff` once more with the cell's own source value. -/
def Fluid.diffuse (f : Fluid) (x y : ℕ) (property : List ℚ) : ℚ :=
  let k := f.dt * f.config.diffusion
  let surrounding_values :=
    gauss_seidel (f.diffuse_equations x y property) [0, 0, 0, 0] 10
  val_after_diff surrounding_values
    (DiffLinearEquationArgs.new (property.getD (f.ix x y) 0) k)

/-- The interior iteration space of the `for i in 1..n+1 { for j in 1..n+1 }`
loops of the diffusion and advection passes, in the source's order
(`i` outer, `j` inner). -/
def interiorPairs (n : ℕ) : List (ℕ × ℕ) :=
  (List.range' 1 n).flatMap (fun i => (List.range' 1 n).map (fun j => (i, j)))

/-- `lib.rs`: `Fluid::diffuse_density` — for every interior cell, write
`density[ix(i,j)]` from `diffuse(i, j, &initial_density)`. -/
def Fluid.diffuse_density (f : Fluid) : Fluid :=
  (interiorPairs f.config.n).foldl
    (fun acc p =>
      { acc with
        density :=
          acc.density.set (acc.ix p.1 p.2) (acc.diffuse p.1 p.2 acc.initial_density) })
    f

/-- `lib.rs`: `Fluid::diffuse_velocity` — for every interior cell, write both
velocity components from their initial buffers. -/
def Fluid.diffuse_velocity (f : Fluid) : Fluid :=
  (interiorPairs f.config.n).foldl
    (fun acc p =>
      { acc with
        velocity_x :=
          acc.velocity_x.set (acc.ix p.1 p.2) (acc.diffuse p.1 p.2 acc.initial_velocity_x)
        velocity_y :=
          acc.velocity_y.set (acc.ix p.1 p.2) (acc.diffuse p.1 p.2 acc.initial_velocity_y) })
    f

/-- Modelled from the spec: `interpolate` is imported by `lib.rs` but its body
is absent from `src/` (`utils.rs` does not define it).  Per §4.4 it is the
linear interpolation between `(x1, v1)` and `(x2, v2)` evaluated at `p`; in
the degenerate case where the two coordinates coincide it returns the value
at that coincident coordinate rather than dividing by zero. -/
def interpolate (x1 v1 x2 v2 p : ℚ) : ℚ :=
  if x1 = x2 then v1 else v1 + (v2 - v1) * (p - x1) / (x2 - x1)

/-- Clamp an integer lattice coordinate into `[0, hi]` (as a natural). -/
def clampCoord (v : ℤ) (hi : ℕ) : ℕ := min (max v 0).toNat hi

/-- Modelled from the spec: `get_surrounding_coords` is imported by `lib.rs`
but its body is absent from `src/` (`utils.rs` does not define it).  Per §4.4
it returns the four integer lattice points bounding the back-traced position
`(px, py)` — top-left, top-right, bottom-left, bottom-right, where the top
row has the smaller `y` — each coordinate clamped into `[0, n+1]` (`hi`)
so indexing stays valid. -/
def get_surrounding_coords (px py : ℚ) (hi : ℕ) : List (ℕ × ℕ) :=
  let x0 := clampCoord ⌊px⌋ hi
  let x1 := clampCoord (⌊px⌋ + 1) hi
  let y0 := clampCoord ⌊py⌋ hi
  let y1 := clampCoord (⌊py⌋ + 1) hi
  [(x0, y0), (x1, y0), (x0, y1), (x1, y1)]

/-- `lib.rs`: `Fluid::advect(x, y, property)` — back-trace along the current
velocity, take the four bounding lattice points, and bilinearly interpolate
`property` there (top pair along x, bottom pair along x, then top/bottom
along y). -/
def Fluid.advect (f : Fluid) (x y : ℕ) (property : List ℚ) : ℚ :=
  let initial_pos_x : ℚ := (x : ℚ) - f.velocity_x.getD (f.ix x y) 0 * f.dt
  let initial_pos_y : ℚ := (y : ℚ) - f.velocity_y.getD (f.ix x y) 0 * f.dt
  let sc := get_surrounding_coords initial_pos_x initial_pos_y (f.config.n + 1)
  let c0 := sc.getD 0 (0, 0)
  let c1 := sc.getD 1 (0, 0)
  let c2 := sc.getD 2 (0, 0)
  let c3 := sc.getD 3 (0, 0)
  let linear_interpolation_of_top :=
    interpolate (c0.1 : ℚ) (property.getD (f.ix c0.1 c0.2) 0)
      (c1.1 : ℚ) (property.getD (f.ix c1.1 c1.2) 0) initial_pos_x
  let linear_interpolation_of_bottom :=
    interpolate (c2.1 : ℚ) (property.getD (f.ix c2.1 c2.2) 0)
      (c3.1 : ℚ) (property.getD (f.ix c3.1 c3.2) 0) initial_pos_x
  interpolate (c0.2 : ℚ) linear_interpolation_of_top
    (c2.2 : ℚ) linear_interpolation_of_bottom initial_pos_y

/-- `lib.rs`: `Fluid::advect_density`. -/
def Fluid.advect_density (f : Fluid) : Fluid :=
  (interiorPairs f.config.n).foldl
    (fun acc p =>
      { acc with
        density :=
          acc.density.set (acc.ix p.1 p.2) (acc.advect p.1 p.2 acc.initial_density) })
    f

/-- `lib.rs`: `Fluid::advect_velocity` — note that the back-trace inside
`advect` reads the velocity buffers that this very pass is mutating, so the
fold threads the whole state exactly as the source does. -/
def Fluid.advect_velocity (f : Fluid) : Fluid :=
  (interiorPairs f.config.n).foldl
    (fun acc p =>
      let vx := acc.advect p.1 p.2 acc.initial_velocity_x
      let vy := acc.advect p.1 p.2 acc.initial_velocity_y
      { acc with
        velocity_x := acc.velocity_x.set (acc.ix p.1 p.2) vx
        velocity_y := acc.velocity_y.set (acc.ix p.1 p.2) vy })
    f

/-- `lib.rs`: `std::mem::swap(&mut self.density, &mut self.initial_density)`. -/
def Fluid.swap_density (f : Fluid) : Fluid :=
  { f with density := f.initial_density, initial_density := f.density }

/-- `lib.rs`: the two `std::mem::swap` calls on the velocity pairs. -/
def Fluid.swap_velocity (f : Fluid) : Fluid :=
  { f with
    velocity_x := f.initial_velocity_x
    initial_velocity_x := f.velocity_x
    velocity_y := f.initial_velocity_y
    initial_velocity_y := f.velocity_y }

/-- `lib.rs`: `Fluid::density_step` — diffuse, swap, advect, swap back. -/
def Fluid.density_step (f : Fluid) : Fluid :=
  f.diffuse_density.swap_density.advect_density.swap_density

/-- `lib.rs`: `Fluid::velocity_step` — diffuse, swap both pairs, advect,
swap both pairs back. -/
def Fluid.velocity_step (f : Fluid) : Fluid :=
  f.diffuse_velocity.swap_velocity.advect_velocity.swap_velocity

/-- `lib.rs`: `Fluid::add_density(index, value)`:
`initial_density[index] += dt * value` (total model; the out-of-range panic
is modelled separately by `Fluid.add_density?`). -/
def Fluid.add_density (f : Fluid) (index : ℕ) (value : ℚ) : Fluid :=
  { f with
    initial_density :=
      f.initial_density.set index (f.initial_density.getD index 0 + f.dt * value) }

/-- `lib.rs`: `Fluid::add_velocity(index, value_x, value_y)`. -/
def Fluid.add_velocity (f : Fluid) (index : ℕ) (value_x value_y : ℚ) : Fluid :=
  { f with
    initial_velocity_x :=
      f.initial_velocity_x.set index
        (f.initial_velocity_x.getD index 0 + f.dt * value_x)
    initial_velocity_y :=
      f.initial_velocity_y.set index
        (f.initial_velocity_y.getD index 0 + f.dt * value_y) }

/-- `lib.rs`: `Fluid::simulate` — velocity step then density step. -/
def Fluid.simulate (f : Fluid) : Fluid :=
  f.velocity_step.density_step

/-- `lib.rs`: `Fluid::get_density_at_index` (total model). -/
def Fluid.get_density_at_index (f : Fluid) (index : ℕ) : ℚ :=
  f.density.getD index 0

/-- `lib.rs`: `Fluid::get_n`. -/
def Fluid.get_n (f : Fluid) : ℕ := f.config.n

/-- `lib.rs`: `Fluid::get_size`. -/
def Fluid.get_size (f : Fluid) : ℕ := f.size

/-- `lib.rs`: `Fluid::set_dt`. -/
def Fluid.set_dt (f : Fluid) (dt : ℚ) : Fluid := { f with dt := dt }

/-- Fallible model of `Fluid::add_density`: Rust's `initial_density[index]`
panics when `index` is out of bounds; `none` models that abort, and for an
in-bounds index the behaviour is exactly the total model's. -/
def Fluid.add_density? (f : Fluid) (index : ℕ) (value : ℚ) : Option Fluid :=
  if index < f.initial_density.length then some (f.add_density index value)
  else none

/-- Fallible model of `Fluid::add_velocity` (both buffer accesses are
bounds-checked; the buffers share one length in every reachable state). -/
def Fluid.add_velocity? (f : Fluid) (index : ℕ) (value_x value_y : ℚ) :
    Option Fluid :=
  if index < f.initial_velocity_x.length ∧ index < f.initial_velocity_y.length
  then some (f.add_velocity index value_x value_y)
  else none

/-- Fallible model of `Fluid::get_density_at_index`. -/
def Fluid.get_density_at_index? (f : Fluid) (index : ℕ) : Option ℚ :=
  if index < f.density.length then some (f.get_density_at_index index) else none

/-- The spec's claimed per-equation form (§4.3), written from the spec's own
words for comparison with the source's `val_after_diff`:
`(neighbor_constant + k * (v[0]+v[1]+v[2]+v[3])) / (1 + k)` — with no
division of the neighbour sum by 4. -/
def specDiffusionEquationValue (c k : ℚ) (v : List ℚ) : ℚ :=
  (c + k * (v.getD 0 0 + v.getD 1 0 + v.getD 2 0 + v.getD 3 0)) / (1 + k)

/-- A border cell has a coordinate equal to `0` or `n+1`. -/
def isBorderCell (n x y : ℕ) : Prop :=
  x = 0 ∨ x = n + 1 ∨ y = 0 ∨ y = n + 1

/-- All six field buffers hold exactly `0` at every border cell. -/
def BordersZero (f : Fluid) : Prop :=
  ∀ x y, x ≤ f.config.n + 1 → y ≤ f.config.n + 1 →
    isBorderCell f.config.n x y →
      f.density.getD (f.ix x y) 0 = 0
      ∧ f.initial_density.getD (f.ix x y) 0 = 0
      ∧ f.velocity_x.getD (f.ix x y) 0 = 0
      ∧ f.initial_velocity_x.getD (f.ix x y) 0 = 0
      ∧ f.velocity_y.getD (f.ix x y) 0 = 0
      ∧ f.initial_velocity_y.getD (f.ix x y) 0 = 0

/-- The external operations a caller may perform between construction and
reading values back: source injection at a lattice cell `(i, j)` (translated
to the flat index with `ix`, as the host caller does) and the per-frame
`simulate` call. -/
inductive FluidOp where
  | addDensity (i j : ℕ) (value : ℚ)
  | addVelocity (i j : ℕ) (vx vy : ℚ)
  | step

/-- Run one external operation against the state. -/
def FluidOp.apply (f : Fluid) : FluidOp → Fluid
  | .addDensity i j value => f.add_density (f.ix i j) value
  | .addVelocity i j vx vy => f.add_velocity (f.ix i j) vx vy
  | .step => f.simulate

/-- An operation only touches interior cells: any injection it performs is at
a cell with both coordinates in `[1, n]`. -/
def FluidOp.interior (n : ℕ) : FluidOp → Prop
  | .addDensity i j _ => 1 ≤ i ∧ i ≤ n ∧ 1 ≤ j ∧ j ≤ n
  | .addVelocity i j _ _ => 1 ≤ i ∧ i ≤ n ∧ 1 ≤ j ∧ j ≤ n
  | .step => True

instance (n : ℕ) (op : FluidOp) : Decidable (op.interior n) :=
  match op with
  | .addDensity _ _ _ => inferInstanceAs (Decidable (_ ∧ _ ∧ _ ∧ _))
  | .addVelocity _ _ _ _ => inferInstanceAs (Decidable (_ ∧ _ ∧ _ ∧ _))
  | .step => inferInstanceAs (Decidable True)

instance (n x y : ℕ) : Decidable (isBorderCell n x y) :=
  inferInstanceAs (Decidable (_ ∨ _ ∨ _ ∨ _))

/-! ## Helper lemmas -/

lemma getD_set_same (l : List ℚ) {i : ℕ} (h : i < l.length) (v : ℚ) :
    (l.set i v).getD i 0 = v := by
  simp [List.getD, List.getElem?_set_self, h]

lemma getD_set_diff (l : List ℚ) {i j : ℕ} (v : ℚ) (h : i ≠ j) :
    (l.set i v).getD j 0 = l.getD j 0 := by
  simp [List.getD, List.getElem?_set_ne h]

lemma getD_replicate_zero (m i : ℕ) : (List.replicate m (0 : ℚ)).getD i 0 = 0 := by
  rcases lt_or_ge i m with h | h
  · simp [List.getD, h]
  · simp [List.getD, List.getElem?_eq_none, h, List.length_replicate]

lemma add16_eq_of_lt {a b : ℕ} (h : a + b < 65536) : add16 a b = a + b :=
  Nat.mod_eq_of_lt h

lemma mul16_eq_of_lt {a b : ℕ} (h : a * b < 65536) : mul16 a b = a * b :=
  Nat.mod_eq_of_lt h

/-- For a small grid (`n ≤ 253`) none of the `u16` operations inside `ix`
wrap, so `ix` is the plain affine map `x + (n+2)*y`. -/
lemma ix_eq_of_le {n x y : ℕ} (hn : n ≤ 253) (hx : x ≤ n + 1) (hy : y ≤ n + 1) :
    ix n x y = x + (n + 2) * y := by
  have h2 : add16 n 2 = n + 2 := add16_eq_of_lt (by omega)
  have hprod : (n + 2) * y ≤ 255 * 254 :=
    Nat.mul_le_mul (by omega) (by omega)
  have hm : mul16 (n + 2) y = (n + 2) * y := mul16_eq_of_lt (by omega)
  have hsum : x + (n + 2) * y < 65536 := by omega
  unfold ix
  rw [h2, hm]
  exact add16_eq_of_lt hsum

lemma ix_lt_size {n x y : ℕ} (hn : n ≤ 253) (hx : x ≤ n + 1) (hy : y ≤ n + 1) :
    ix n x y < (n + 2) * (n + 2) := by
  rw [ix_eq_of_le hn hx hy]
  have h1 : (n + 2) * y ≤ (n + 2) * (n + 1) := Nat.mul_le_mul_left _ hy
  have h2 : (n + 2) * (n + 2) = (n + 2) * (n + 1) + (n + 2) := by ring
  omega

lemma ix_inj {n x1 y1 x2 y2 : ℕ} (hn : n ≤ 253)
    (hx1 : x1 ≤ n + 1) (hy1 : y1 ≤ n + 1) (hx2 : x2 ≤ n + 1) (hy2 : y2 ≤ n + 1)
    (h : ix n x1 y1 = ix n x2 y2) : x1 = x2 ∧ y1 = y2 := by
  rw [ix_eq_of_le hn hx1 hy1, ix_eq_of_le hn hx2 hy2] at h
  have hmod := congrArg (fun t => t % (n + 2)) h
  simp only [Nat.add_mul_mod_self_left] at hmod
  rw [Nat.mod_eq_of_lt (by omega : x1 < n + 2),
      Nat.mod_eq_of_lt (by omega : x2 < n + 2)] at hmod
  subst hmod
  refine ⟨rfl, ?_⟩
  have := Nat.add_left_cancel h
  exact Nat.eq_of_mul_eq_mul_left (by omega) this

/-- `utils.rs` `mod tests`: equation `fn1` of the regression test
`gauss_seidel_works`. -/
def tests.fn1 (v : List ℚ) (_arg : Option ℕ) : ℚ :=
  (3 + (2 * v.getD 1 0) + v.getD 2 0 + v.getD 3 0) * (1 / 10)

/-- `utils.rs` `mod tests`: equation `fn2`. -/
def tests.fn2 (v : List ℚ) (_arg : Option ℕ) : ℚ :=
  (15 + (2 * v.getD 0 0) + v.getD 2 0 + v.getD 3 0) * (1 / 10)

/-- `utils.rs` `mod tests`: equation `fn3`. -/
def tests.fn3 (v : List ℚ) (_arg : Option ℕ) : ℚ :=
  (27 + v.getD 0 0 + v.getD 1 0 + v.getD 3 0) * (1 / 10)

/-- `utils.rs` `mod tests`: equation `fn4`. -/
def tests.fn4 (v : List ℚ) (_arg : Option ℕ) : ℚ :=
  ((-1 * 9) + v.getD 0 0 + v.getD 1 0 + (2 * v.getD 2 0)) * (1 / 10)

/-- `utils.rs` `mod tests`: the `answers` vector of `gauss_seidel_works` —
the four test equations run from `[0,0,0,0]` for 10 iterations. -/
def tests.answers : List ℚ :=
  gauss_seidel
    [GaussSeidelFunction.new tests.fn1 none, GaussSeidelFunction.new tests.fn2 none,
     GaussSeidelFunction.new tests.fn3 none, GaussSeidelFunction.new tests.fn4 none]
    [0, 0, 0, 0] 10

set_option allowUnsafeReducibility true

attribute [local semireducible] Rat.add Rat.mul Rat.sub Rat.neg Rat.div Rat.inv

set_option maxRecDepth 4000000

set_option linter.unusedVariables false

/-! ## Claims -/

/-- C4: for every `x, y` with `0 ≤ x, y ≤ n+1` (and `n ≤ 253`, so that no
`u16` operation wraps), `ix(x, y) = x + (n+2)*y`, this map is a bijection
from `[0, n+1] × [0, n+1]` onto `[0, size-1]` where `size` is the value
computed by `Fluid::new`, and `ix(0,0) = 0`, `ix(n+1,n+1) = size - 1`. -/
theorem ix_affine_bijection (n : ℕ) (hn : n ≤ 253) :
    (∀ x y, x ≤ n + 1 → y ≤ n + 1 → ix n x y = x + (n + 2) * y)
    ∧ Set.BijOn (fun p : ℕ × ℕ => ix n p.1 p.2)
        {p : ℕ × ℕ | p.1 ≤ n + 1 ∧ p.2 ≤ n + 1}
        {i : ℕ | i < mul16 (add16 n 2) (add16 n 2)}
    ∧ ix n 0 0 = 0
    ∧ ix n (n + 1) (n + 1) = mul16 (add16 n 2) (add16 n 2) - 1 := by
  have hsize : mul16 (add16 n 2) (add16 n 2) = (n + 2) * (n + 2) := by
    rw [add16_eq_of_lt (by omega)]
    exact mul16_eq_of_lt (lt_of_le_of_lt (Nat.mul_le_mul (by omega) (by omega))
      (by norm_num : 255 * 255 < 65536))
  refine ⟨fun x y hx hy => ix_eq_of_le hn hx hy, ⟨?_, ?_, ?_⟩, ?_, ?_⟩
  · intro p hp
    simp only [Set.mem_setOf_eq] at hp ⊢
    rw [hsize]
    exact ix_lt_size hn hp.1 hp.2
  · intro p hp q hq hpq
    simp only [Set.mem_setOf_eq] at hp hq
    obtain ⟨h1, h2⟩ := ix_inj hn hp.1 hp.2 hq.1 hq.2 hpq
    exact Prod.ext h1 h2
  · intro i hi
    simp only [Set.mem_setOf_eq, hsize] at hi
    refine ⟨(i % (n + 2), i / (n + 2)), ⟨?_, ?_⟩, ?_⟩
    · have : i % (n + 2) < n + 2 := Nat.mod_lt _ (by omega)
      omega
    · have : i / (n + 2) < n + 2 := Nat.div_lt_iff_lt_mul (by omega) |>.mpr hi
      omega
    · have h1 : i % (n + 2) ≤ n + 1 := by
        have : i % (n + 2) < n + 2 := Nat.mod_lt _ (by omega)
        omega
      have h2 : i / (n + 2) ≤ n + 1 := by
        have : i / (n + 2) < n + 2 := Nat.div_lt_iff_lt_mul (by omega) |>.mpr hi
        omega
      simp only
      rw [ix_eq_of_le hn h1 h2]
      exact Nat.mod_add_div i (n + 2)
  · rw [ix_eq_of_le hn (by omega) (by omega)]
    simp
  · rw [ix_eq_of_le hn (by omega) (by omega), hsize]
    have e : (n + 2) * (n + 2) = (n + 2) * (n + 1) + (n + 2) := by ring
    have e2 : (n + 2) * (n + 1) = n + 1 + (n + 1) * (n + 1) := by ring
    omega

/-- C4 witness: the theorem instantiated at `n = 3`. -/
theorem ix_affine_bijection_witness :
    3 ≤ 253
    ∧ ((∀ x y, x ≤ 3 + 1 → y ≤ 3 + 1 → ix 3 x y = x + (3 + 2) * y)
      ∧ Set.BijOn (fun p : ℕ × ℕ => ix 3 p.1 p.2)
          {p : ℕ × ℕ | p.1 ≤ 3 + 1 ∧ p.2 ≤ 3 + 1}
          {i : ℕ | i < mul16 (add16 3 2) (add16 3 2)}
      ∧ ix 3 0 0 = 0
      ∧ ix 3 (3 + 1) (3 + 1) = mul16 (add16 3 2) (add16 3 2) - 1) :=
  ⟨by decide, ix_affine_bijection 3 (by decide)⟩

/-- C10: `Fluid::new` computes `size = (n+2)*(n+2)` in `u16` arithmetic.
For `n ≤ 253` the six buffers each have length exactly `(n+2)^2` and
`get_size` returns `(n+2)^2`; for `n ≥ 254` the computation overflows `u16`,
so the unconditional `size = (n+2)^2` fails: under wrapping semantics the
result is `(n+2)^2 mod 2^16`, and under checked semantics the computation
aborts. -/
theorem new_size_u16 (n : ℕ) (hlt : n < 65536) (d : ℚ) :
    ((Fluid.new (FluidConfig.new n d)).velocity_x.length
        = mul16 (add16 n 2) (add16 n 2)
      ∧ (Fluid.new (FluidConfig.new n d)).velocity_y.length
        = mul16 (add16 n 2) (add16 n 2)
      ∧ (Fluid.new (FluidConfig.new n d)).initial_velocity_x.length
        = mul16 (add16 n 2) (add16 n 2)
      ∧ (Fluid.new (FluidConfig.new n d)).initial_velocity_y.length
        = mul16 (add16 n 2) (add16 n 2)
      ∧ (Fluid.new (FluidConfig.new n d)).density.length
        = mul16 (add16 n 2) (add16 n 2)
      ∧ (Fluid.new (FluidConfig.new n d)).initial_density.length
        = mul16 (add16 n 2) (add16 n 2)
      ∧ (Fluid.new (FluidConfig.new n d)).get_size
        = mul16 (add16 n 2) (add16 n 2))
    ∧ (n ≤ 253 →
        mul16 (add16 n 2) (add16 n 2) = (n + 2) * (n + 2)
        ∧ sizeChecked n = some ((n + 2) * (n + 2)))
    ∧ (254 ≤ n →
        mul16 (add16 n 2) (add16 n 2) = (n + 2) * (n + 2) % 65536
        ∧ mul16 (add16 n 2) (add16 n 2) ≠ (n + 2) * (n + 2)
        ∧ sizeChecked n = none) := by
  refine ⟨⟨?_, ?_, ?_, ?_, ?_, ?_, ?_⟩, ?_, ?_⟩
  all_goals try simp [Fluid.new, Fluid.get_size, FluidConfig.new]
  · intro hn
    have hsq : (n + 2) * (n + 2) < 65536 :=
      lt_of_le_of_lt (Nat.mul_le_mul (by omega) (by omega))
        (by norm_num : 255 * 255 < 65536)
    have h2 : add16 n 2 = n + 2 := add16_eq_of_lt (by omega)
    refine ⟨by rw [h2]; exact mul16_eq_of_lt hsq, ?_⟩
    simp [sizeChecked, add16?, mul16?, hsq, show n + 2 < 65536 by omega]
  · intro hn
    have hsq : 65536 ≤ (n + 2) * (n + 2) :=
      le_trans (by norm_num : 65536 ≤ 256 * 256)
        (Nat.mul_le_mul (by omega) (by omega))
    have hmod : mul16 (add16 n 2) (add16 n 2) = (n + 2) * (n + 2) % 65536 := by
      unfold mul16 add16
      exact (Nat.mul_mod _ _ _).symm
    refine ⟨hmod, ?_, ?_⟩
    · rw [hmod]
      have : (n + 2) * (n + 2) % 65536 < 65536 := Nat.mod_lt _ (by omega)
      omega
    · unfold sizeChecked add16? mul16?
      rcases lt_or_ge (n + 2) 65536 with h | h
      · simp only [if_pos h]
        rw [if_neg (by omega)]
      · rw [if_neg (by omega)]

/-- C10 witness: the theorem instantiated at `n = 254`, where the overflow
branch is live. -/
theorem new_size_u16_witness :
    254 < 65536
    ∧ (((Fluid.new (FluidConfig.new 254 0)).velocity_x.length
          = mul16 (add16 254 2) (add16 254 2)
        ∧ (Fluid.new (FluidConfig.new 254 0)).velocity_y.length
          = mul16 (add16 254 2) (add16 254 2)
        ∧ (Fluid.new (FluidConfig.new 254 0)).initial_velocity_x.length
          = mul16 (add16 254 2) (add16 254 2)
        ∧ (Fluid.new (FluidConfig.new 254 0)).initial_velocity_y.length
          = mul16 (add16 254 2) (add16 254 2)
        ∧ (Fluid.new (FluidConfig.new 254 0)).density.length
          = mul16 (add16 254 2) (add16 254 2)
        ∧ (Fluid.new (FluidConfig.new 254 0)).initial_density.length
          = mul16 (add16 254 2) (add16 254 2)
        ∧ (Fluid.new (FluidConfig.new 254 0)).get_size
          = mul16 (add16 254 2) (add16 254 2))
      ∧ (254 ≤ 253 →
          mul16 (add16 254 2) (add16 254 2) = (254 + 2) * (254 + 2)
          ∧ sizeChecked 254 = some ((254 + 2) * (254 + 2)))
      ∧ (254 ≤ 254 →
          mul16 (add16 254 2) (add16 254 2) = (254 + 2) * (254 + 2) % 65536
          ∧ mul16 (add16 254 2) (add16 254 2) ≠ (254 + 2) * (254 + 2)
          ∧ sizeChecked 254 = none)) :=
  ⟨by decide, new_size_u16 254 (by decide) 0⟩

lemma foldl_update_length {T : Type} (functions : List (GaussSeidelFunction T))
    (l : List ℕ) (acc : List ℚ) :
    (l.foldl (gaussSeidelUpdate functions) acc).length = acc.length := by
  induction l generalizing acc with
  | nil => rfl
  | cons a l ih =>
    rw [List.foldl_cons, ih]
    simp [gaussSeidelUpdate]

lemma gaussSeidelSweep_length {T : Type} (functions : List (GaussSeidelFunction T))
    (m : ℕ) (acc : List ℚ) :
    (gaussSeidelSweep functions m acc).length = acc.length :=
  foldl_update_length functions (List.range m) acc

/-- C5: `gauss_seidel` runs exactly the given number of iterations with no
convergence test (the zero/successor recurrence holds unconditionally), and
within each sweep it updates the unknowns in place sequentially in index
order over the length of the initial guess vector, so the update of unknown
`j` is evaluated against the vector that already contains this sweep's
updates of unknowns `0..j-1` (Gauss-Seidel, not Jacobi), returning the final
vector. -/
theorem gauss_seidel_sequential_fixed_iterations {T : Type}
    (functions : List (GaussSeidelFunction T)) (initial_values : List ℚ) :
    gauss_seidel functions initial_values 0 = initial_values
    ∧ (∀ iter, gauss_seidel functions initial_values (iter + 1)
        = gaussSeidelSweep functions initial_values.length
            (gauss_seidel functions initial_values iter))
    ∧ (∀ iter, (gauss_seidel functions initial_values iter).length
        = initial_values.length)
    ∧ (∀ acc : List ℚ, gaussSeidelSweep functions 0 acc = acc)
    ∧ (∀ (acc : List ℚ) (j : ℕ),
        gaussSeidelSweep functions (j + 1) acc
          = (gaussSeidelSweep functions j acc).set j
              (((functions.get? j).map
                  (fun g => g.call (gaussSeidelSweep functions j acc))).getD 0)) := by
  refine ⟨rfl, fun iter => ?_, fun iter => ?_, fun acc => rfl, fun acc j => ?_⟩
  · exact Function.iterate_succ_apply' _ iter initial_values
  · induction iter with
    | zero => rfl
    | succ it ih =>
      rw [gauss_seidel, Function.iterate_succ_apply', ← gauss_seidel,
        gaussSeidelSweep_length, ih]
  · rw [gaussSeidelSweep, List.range_succ, List.foldl_append]
    rfl

/-- C6 counterexample: the regression system of `tests::gauss_seidel_works`
run for 10 iterations from `[0,0,0,0]` does not yield exactly `[1,2,3,0]`
(the first component is `38146971429267280875927580842453 /
38146972656250000000000000000000`, about `3.2e-8` short of `1`), so the
repository's own `assert_eq!` expectations are not met. -/
theorem gauss_seidel_test_not_exact : tests.answers ≠ [1, 2, 3, 0] := by
  decide

/-- C6 (amended): the same run yields a vector of length 4 whose components
are each within `10^-7` of `1`, `2`, `3`, `0` respectively — the system
converges to `[1,2,3,0]` approximately, not exactly. -/
theorem gauss_seidel_test_approx :
    tests.answers.length = 4
    ∧ |tests.answers.getD 0 0 - 1| < 1 / 10000000
    ∧ |tests.answers.getD 1 0 - 2| < 1 / 10000000
    ∧ |tests.answers.getD 2 0 - 3| < 1 / 10000000
    ∧ |tests.answers.getD 3 0 - 0| < 1 / 10000000 := by
  refine ⟨by decide, by decide, by decide, by decide, by decide⟩

/-- C1 counterexample: in the state built by `Fluid::new` with `n = 1`,
`diffusion = 10` (so `k = dt * diffusion = 1`) and a source field that is
constantly `1`, the first per-neighbour equation of `Fluid::diffuse` at the
unknown vector `[1,1,1,1]` evaluates to `1`, not to the spec's claimed
`(neighbor_constant + k * (v0+v1+v2+v3)) / (1 + k) = 5/2`: the code divides
the neighbour sum by 4 before scaling by `k`. -/
theorem diffuse_equation_not_spec_form :
    GaussSeidelFunction.call
        (((Fluid.new (FluidConfig.new 1 10)).diffuse_equations 1 1
            (List.replicate 9 1)).getD 0
          (GaussSeidelFunction.new val_after_diff (DiffLinearEquationArgs.new 0 0)))
        [1, 1, 1, 1]
      ≠ specDiffusionEquationValue
          ((List.replicate 9 (1 : ℚ)).getD ((Fluid.new (FluidConfig.new 1 10)).ix 2 1) 0)
          ((Fluid.new (FluidConfig.new 1 10)).dt
            * (Fluid.new (FluidConfig.new 1 10)).config.diffusion)
          [1, 1, 1, 1] := by
  decide

/-- C1 (amended): with `k = dt * diffusion_rate`, each of the four
per-neighbour diffusion equations, given the current 4-element unknown
vector `v`, evaluates to
`(neighbor_constant + k * (v[0]+v[1]+v[2]+v[3]) / 4) / (1 + k)` (neighbour
constants taken east, west, south, north), and the diffused value for
`(x,y)` is `(F[index(x,y)] + k * (solved[0]+solved[1]+solved[2]+solved[3]) / 4) / (1+k)`
where `solved` is the 10-iteration relaxation result on those equations. -/
theorem diffuse_equations_and_value_form (f : Fluid) (x y : ℕ)
    (property : List ℚ) (v : List ℚ) :
    ((f.diffuse_equations x y property).map (fun g => g.call v)
      = [(property.getD (f.ix (add16 x 1) y) 0
            + f.dt * f.config.diffusion
              * (v.getD 0 0 + v.getD 1 0 + v.getD 2 0 + v.getD 3 0) / 4)
          / (1 + f.dt * f.config.diffusion),
         (property.getD (f.ix (sub16 x 1) y) 0
            + f.dt * f.config.diffusion
              * (v.getD 0 0 + v.getD 1 0 + v.getD 2 0 + v.getD 3 0) / 4)
          / (1 + f.dt * f.config.diffusion),
         (property.getD (f.ix x (add16 y 1)) 0
            + f.dt * f.config.diffusion
              * (v.getD 0 0 + v.getD 1 0 + v.getD 2 0 + v.getD 3 0) / 4)
          / (1 + f.dt * f.config.diffusion),
         (property.getD (f.ix x (sub16 y 1)) 0
            + f.dt * f.config.diffusion
              * (v.getD 0 0 + v.getD 1 0 + v.getD 2 0 + v.getD 3 0) / 4)
          / (1 + f.dt * f.config.diffusion)])
    ∧ f.diffuse x y property
      = (property.getD (f.ix x y) 0
          + f.dt * f.config.diffusion
            * ((gauss_seidel (f.diffuse_equations x y property) [0, 0, 0, 0] 10).getD 0 0
              + (gauss_seidel (f.diffuse_equations x y property) [0, 0, 0, 0] 10).getD 1 0
              + (gauss_seidel (f.diffuse_equations x y property) [0, 0, 0, 0] 10).getD 2 0
              + (gauss_seidel (f.diffuse_equations x y property) [0, 0, 0, 0] 10).getD 3 0) / 4)
        / (1 + f.dt * f.config.diffusion) := by
  constructor
  · rfl
  · rfl

/-- C3: when `k = dt * diffusion_rate = 0`, the diffused value of an
interior cell equals the source value exactly: the solved neighbour system
is irrelevant and `diffuse(x, y, F) = F[index(x, y)]`. -/
theorem diffuse_noop_of_zero_k (f : Fluid) (x y : ℕ) (property : List ℚ)
    (hk : f.dt * f.config.diffusion = 0)
    (hx1 : 1 ≤ x) (hx2 : x ≤ f.config.n) (hy1 : 1 ≤ y) (hy2 : y ≤ f.config.n) :
    f.diffuse x y property = property.getD (f.ix x y) 0 := by
  simp [Fluid.diffuse, val_after_diff, DiffLinearEquationArgs.new, hk]

/-- C3 witness: the theorem applied to the freshly built `n = 3`,
`diffusion = 0` state on a constant source field at cell `(2,2)`. -/
theorem diffuse_noop_of_zero_k_witness :
    ((Fluid.new (FluidConfig.new 3 0)).dt
        * (Fluid.new (FluidConfig.new 3 0)).config.diffusion = 0
      ∧ 1 ≤ 2 ∧ 2 ≤ (Fluid.new (FluidConfig.new 3 0)).config.n)
    ∧ (Fluid.new (FluidConfig.new 3 0)).diffuse 2 2 (List.replicate 25 7)
      = (List.replicate 25 (7 : ℚ)).getD ((Fluid.new (FluidConfig.new 3 0)).ix 2 2) 0 :=
  ⟨⟨by decide, by decide, by decide⟩,
    diffuse_noop_of_zero_k (Fluid.new (FluidConfig.new 3 0)) 2 2
      (List.replicate 25 7) (by decide) (by decide) (by decide) (by decide) (by decide)⟩

/-- C2: for the simulation built with `n = 3` (size 25), `diffusion_rate = 0`
and the default `dt = 0.1`, after `add_density(index(2,2), 100)` and one
`step()`, `density_at(index(2,2))` returns exactly `10`. -/
theorem end_to_end_density_ten :
    ((Fluid.new (FluidConfig.new 3 0)).add_density
        ((Fluid.new (FluidConfig.new 3 0)).ix 2 2) 100).simulate.get_density_at_index
      (((Fluid.new (FluidConfig.new 3 0)).add_density
        ((Fluid.new (FluidConfig.new 3 0)).ix 2 2) 100).simulate.ix 2 2) = 10 := by
  decide

lemma set_add_twice (l : List ℚ) (i : ℕ) (dt a b : ℚ) :
    (l.set i (l.getD i 0 + dt * a)).set i
      ((l.set i (l.getD i 0 + dt * a)).getD i 0 + dt * b)
      = l.set i (l.getD i 0 + dt * (a + b)) := by
  rcases lt_or_ge i l.length with h | h
  · rw [getD_set_same l h, List.set_set]
    have e : l.getD i 0 + dt * a + dt * b = l.getD i 0 + dt * (a + b) := by ring
    rw [e]
  · simp only [List.set_eq_of_length_le h]

/-- C7: `add_density` and `add_velocity` are additive — two calls with values
`a` then `b` at the same flat index produce the same state (in particular the
same initial buffers) as one call with `a + b`. -/
theorem add_density_add_velocity_additive (f : Fluid) (i : ℕ)
    (a b ax ay bx bY : ℚ) :
    (f.add_density i a).add_density i b = f.add_density i (a + b)
    ∧ (f.add_velocity i ax ay).add_velocity i bx bY
      = f.add_velocity i (ax + bx) (ay + bY) := by
  constructor
  · simp only [Fluid.add_density]
    rw [set_add_twice]
  · simp only [Fluid.add_velocity]
    rw [set_add_twice, set_add_twice]

/-- C9: the index-taking operations bounds-check their flat index: an index
outside `[0, size-1]` (`size` = the buffer length) makes the Rust access
panic, modelled as `none` — an unrecoverable abort, not a recoverable error —
while an in-range index performs the exact `+= dt * value` update with no
clamping, and no other in-range slot is modified. -/
theorem index_ops_abort_on_out_of_range (f : Fluid) (i : ℕ) (v vx vy : ℚ) :
    (f.initial_density.length ≤ i → f.add_density? i v = none)
    ∧ (i < f.initial_density.length →
        f.add_density? i v
          = some { f with initial_density :=
              f.initial_density.set i (f.initial_density.getD i 0 + f.dt * v) }
        ∧ ∀ j, j ≠ i →
            (f.add_density i v).initial_density.getD j 0
              = f.initial_density.getD j 0)
    ∧ (f.initial_velocity_x.length ≤ i ∨ f.initial_velocity_y.length ≤ i →
        f.add_velocity? i vx vy = none)
    ∧ (i < f.initial_velocity_x.length → i < f.initial_velocity_y.length →
        f.add_velocity? i vx vy = some (f.add_velocity i vx vy)
        ∧ ∀ j, j ≠ i →
            (f.add_velocity i vx vy).initial_velocity_x.getD j 0
              = f.initial_velocity_x.getD j 0
            ∧ (f.add_velocity i vx vy).initial_velocity_y.getD j 0
              = f.initial_velocity_y.getD j 0)
    ∧ (f.density.length ≤ i → f.get_density_at_index? i = none)
    ∧ (i < f.density.length →
        f.get_density_at_index? i = some (f.density.getD i 0)) := by
  refine ⟨?_, ?_, ?_, ?_, ?_, ?_⟩
  · intro h
    simp [Fluid.add_density?, Nat.not_lt.mpr h]
  · intro h
    refine ⟨by simp [Fluid.add_density?, h, Fluid.add_density], ?_⟩
    intro j hj
    simp only [Fluid.add_density]
    exact getD_set_diff _ _ (fun e => hj (e.symm))
  · intro h
    rcases h with h | h <;>
      simp [Fluid.add_velocity?, Nat.not_lt.mpr h]
  · intro h1 h2
    refine ⟨by simp [Fluid.add_velocity?, h1, h2], ?_⟩
    intro j hj
    constructor <;>
      · simp only [Fluid.add_velocity]
        exact getD_set_diff _ _ (fun e => hj (e.symm))
  · intro h
    simp [Fluid.get_density_at_index?, Nat.not_lt.mpr h]
  · intro h
    simp [Fluid.get_density_at_index?, Fluid.get_density_at_index, h]

/-- C9 witness: for the `n = 1` state (size 9), index 25 aborts and index 2
reads back exactly. -/
theorem index_ops_abort_witness :
    (Fluid.new (FluidConfig.new 1 0)).add_density? 25 3 = none
    ∧ (Fluid.new (FluidConfig.new 1 0)).get_density_at_index? 2
      = some ((Fluid.new (FluidConfig.new 1 0)).density.getD 2 0) :=
  ⟨(index_ops_abort_on_out_of_range (Fluid.new (FluidConfig.new 1 0)) 25 3 0 0).1
      (by decide),
   (index_ops_abort_on_out_of_range (Fluid.new (FluidConfig.new 1 0)) 2 3 0 0).2.2.2.2.2
      (by decide)⟩

lemma foldl_invariant {α β : Type _} (P : β → Prop) (g : β → α → β) :
    ∀ (l : List α) (b : β), P b → (∀ x a, a ∈ l → P x → P (g x a)) →
      P (l.foldl g b) := by
  intro l
  induction l with
  | nil => intro b hb _; exact hb
  | cons a l ih =>
    intro b hb hstep
    rw [List.foldl_cons]
    exact ih (g b a) (hstep b a (by simp) hb)
      (fun x a' ha' hx => hstep x a' (by simp [ha']) hx)

lemma mem_interiorPairs {n : ℕ} {p : ℕ × ℕ} :
    p ∈ interiorPairs n ↔ 1 ≤ p.1 ∧ p.1 ≤ n ∧ 1 ≤ p.2 ∧ p.2 ≤ n := by
  obtain ⟨i, j⟩ := p
  simp only [interiorPairs, List.mem_flatMap, List.mem_map, List.mem_range'_1,
    Prod.mk.injEq]
  constructor
  · rintro ⟨a, ⟨ha1, ha2⟩, b, ⟨hb1, hb2⟩, he1, he2⟩
    subst he1; subst he2
    exact ⟨ha1, by omega, hb1, by omega⟩
  · rintro ⟨h1, h2, h3, h4⟩
    exact ⟨i, ⟨h1, by omega⟩, j, ⟨h3, by omega⟩, rfl, rfl⟩

lemma getD_set_interior {n i j x y : ℕ} (hn : n ≤ 253)
    (hi1 : 1 ≤ i) (hi2 : i ≤ n) (hj1 : 1 ≤ j) (hj2 : j ≤ n)
    (hx : x ≤ n + 1) (hy : y ≤ n + 1) (hb : isBorderCell n x y)
    (l : List ℚ) (w : ℚ) :
    (l.set (ix n i j) w).getD (ix n x y) 0 = l.getD (ix n x y) 0 := by
  apply getD_set_diff
  intro he
  obtain ⟨hxe, hye⟩ := ix_inj hn (by omega) (by omega) hx hy he
  rcases hb with h | h | h | h <;> omega

lemma pass_preserves (c : FluidConfig) (body : Fluid → ℕ × ℕ → Fluid)
    (hbody : ∀ acc p, p ∈ interiorPairs c.n → acc.config = c → BordersZero acc →
      (body acc p).config = c ∧ BordersZero (body acc p))
    (f : Fluid) (hf : f.config = c) (hb : BordersZero f) :
    ((interiorPairs c.n).foldl body f).config = c
    ∧ BordersZero ((interiorPairs c.n).foldl body f) :=
  foldl_invariant (fun g => g.config = c ∧ BordersZero g) body _ f ⟨hf, hb⟩
    (fun acc p hp hacc => hbody acc p hp hacc.1 hacc.2)

lemma diffuse_density_preserves {f : Fluid} (hn : f.config.n ≤ 253)
    (hb : BordersZero f) :
    f.diffuse_density.config = f.config ∧ BordersZero f.diffuse_density := by
  unfold Fluid.diffuse_density
  refine pass_preserves f.config _ ?_ f rfl hb
  intro acc p hp hacc hbz
  rw [mem_interiorPairs] at hp
  have hcn : acc.config.n = f.config.n := by rw [hacc]
  refine ⟨hacc, ?_⟩
  intro x y hx hy hbord
  dsimp only [Fluid.ix] at hx hy hbord ⊢
  obtain ⟨d1, d2, d3, d4, d5, d6⟩ := hbz x y hx hy hbord
  refine ⟨?_, d2, d3, d4, d5, d6⟩
  rw [hcn]
  rw [getD_set_interior hn hp.1 hp.2.1 hp.2.2.1 hp.2.2.2
    (hcn ▸ hx) (hcn ▸ hy) (hcn ▸ hbord)]
  rw [← hcn]
  exact d1

lemma advect_density_preserves {f : Fluid} (hn : f.config.n ≤ 253)
    (hb : BordersZero f) :
    f.advect_density.config = f.config ∧ BordersZero f.advect_density := by
  unfold Fluid.advect_density
  refine pass_preserves f.config _ ?_ f rfl hb
  intro acc p hp hacc hbz
  rw [mem_interiorPairs] at hp
  have hcn : acc.config.n = f.config.n := by rw [hacc]
  refine ⟨hacc, ?_⟩
  intro x y hx hy hbord
  dsimp only [Fluid.ix] at hx hy hbord ⊢
  obtain ⟨d1, d2, d3, d4, d5, d6⟩ := hbz x y hx hy hbord
  refine ⟨?_, d2, d3, d4, d5, d6⟩
  rw [hcn]
  rw [getD_set_interior hn hp.1 hp.2.1 hp.2.2.1 hp.2.2.2
    (hcn ▸ hx) (hcn ▸ hy) (hcn ▸ hbord)]
  rw [← hcn]
  exact d1

lemma diffuse_velocity_preserves {f : Fluid} (hn : f.config.n ≤ 253)
    (hb : BordersZero f) :
    f.diffuse_velocity.config = f.config ∧ BordersZero f.diffuse_velocity := by
  unfold Fluid.diffuse_velocity
  refine pass_preserves f.config _ ?_ f rfl hb
  intro acc p hp hacc hbz
  rw [mem_interiorPairs] at hp
  have hcn : acc.config.n = f.config.n := by rw [hacc]
  refine ⟨hacc, ?_⟩
  intro x y hx hy hbord
  dsimp only [Fluid.ix] at hx hy hbord ⊢
  obtain ⟨d1, d2, d3, d4, d5, d6⟩ := hbz x y hx hy hbord
  refine ⟨d1, d2, ?_, d4, ?_, d6⟩ <;>
    · rw [hcn]
      rw [getD_set_interior hn hp.1 hp.2.1 hp.2.2.1 hp.2.2.2
        (hcn ▸ hx) (hcn ▸ hy) (hcn ▸ hbord)]
      rw [← hcn]
      first
      | exact d3
      | exact d5

lemma advect_velocity_preserves {f : Fluid} (hn : f.config.n ≤ 253)
    (hb : BordersZero f) :
    f.advect_velocity.config = f.config ∧ BordersZero f.advect_velocity := by
  unfold Fluid.advect_velocity
  refine pass_preserves f.config _ ?_ f rfl hb
  intro acc p hp hacc hbz
  rw [mem_interiorPairs] at hp
  have hcn : acc.config.n = f.config.n := by rw [hacc]
  refine ⟨hacc, ?_⟩
  intro x y hx hy hbord
  dsimp only [Fluid.ix] at hx hy hbord ⊢
  obtain ⟨d1, d2, d3, d4, d5, d6⟩ := hbz x y hx hy hbord
  refine ⟨d1, d2, ?_, d4, ?_, d6⟩ <;>
    · rw [hcn]
      rw [getD_set_interior hn hp.1 hp.2.1 hp.2.2.1 hp.2.2.2
        (hcn ▸ hx) (hcn ▸ hy) (hcn ▸ hbord)]
      rw [← hcn]
      first
      | exact d3
      | exact d5

lemma swap_density_preserves {f : Fluid} (hb : BordersZero f) :
    f.swap_density.config = f.config ∧ BordersZero f.swap_density := by
  refine ⟨rfl, ?_⟩
  intro x y hx hy hbord
  obtain ⟨d1, d2, d3, d4, d5, d6⟩ := hb x y hx hy hbord
  exact ⟨d2, d1, d3, d4, d5, d6⟩

lemma swap_velocity_preserves {f : Fluid} (hb : BordersZero f) :
    f.swap_velocity.config = f.config ∧ BordersZero f.swap_velocity := by
  refine ⟨rfl, ?_⟩
  intro x y hx hy hbord
  obtain ⟨d1, d2, d3, d4, d5, d6⟩ := hb x y hx hy hbord
  exact ⟨d1, d2, d4, d3, d6, d5⟩

lemma velocity_step_preserves {f : Fluid} (hn : f.config.n ≤ 253)
    (hb : BordersZero f) :
    f.velocity_step.config = f.config ∧ BordersZero f.velocity_step := by
  obtain ⟨c1, b1⟩ := diffuse_velocity_preserves hn hb
  obtain ⟨c2, b2⟩ := swap_velocity_preserves b1
  obtain ⟨c3, b3⟩ := advect_velocity_preserves (by rw [c2, c1]; exact hn) b2
  obtain ⟨c4, b4⟩ := swap_velocity_preserves b3
  exact ⟨by rw [Fluid.velocity_step, c4, c3, c2, c1], b4⟩

lemma density_step_preserves {f : Fluid} (hn : f.config.n ≤ 253)
    (hb : BordersZero f) :
    f.density_step.config = f.config ∧ BordersZero f.density_step := by
  obtain ⟨c1, b1⟩ := diffuse_density_preserves hn hb
  obtain ⟨c2, b2⟩ := swap_density_preserves b1
  obtain ⟨c3, b3⟩ := advect_density_preserves (by rw [c2, c1]; exact hn) b2
  obtain ⟨c4, b4⟩ := swap_density_preserves b3
  exact ⟨by rw [Fluid.density_step, c4, c3, c2, c1], b4⟩

lemma simulate_preserves {f : Fluid} (hn : f.config.n ≤ 253)
    (hb : BordersZero f) :
    f.simulate.config = f.config ∧ BordersZero f.simulate := by
  obtain ⟨c1, b1⟩ := velocity_step_preserves hn hb
  obtain ⟨c2, b2⟩ := density_step_preserves (by rw [c1]; exact hn) b1
  exact ⟨by rw [Fluid.simulate, c2, c1], b2⟩

lemma add_density_interior_preserves {f : Fluid} (hn : f.config.n ≤ 253)
    {i j : ℕ} (hi1 : 1 ≤ i) (hi2 : i ≤ f.config.n) (hj1 : 1 ≤ j)
    (hj2 : j ≤ f.config.n) (v : ℚ) (hb : BordersZero f) :
    (f.add_density (f.ix i j) v).config = f.config
    ∧ BordersZero (f.add_density (f.ix i j) v) := by
  refine ⟨rfl, ?_⟩
  intro x y hx hy hbord
  dsimp only [Fluid.add_density, Fluid.ix] at hx hy hbord ⊢
  obtain ⟨d1, d2, d3, d4, d5, d6⟩ := hb x y hx hy hbord
  refine ⟨d1, ?_, d3, d4, d5, d6⟩
  rw [getD_set_interior hn hi1 hi2 hj1 hj2 hx hy hbord]
  exact d2

lemma add_velocity_interior_preserves {f : Fluid} (hn : f.config.n ≤ 253)
    {i j : ℕ} (hi1 : 1 ≤ i) (hi2 : i ≤ f.config.n) (hj1 : 1 ≤ j)
    (hj2 : j ≤ f.config.n) (vx vy : ℚ) (hb : BordersZero f) :
    (f.add_velocity (f.ix i j) vx vy).config = f.config
    ∧ BordersZero (f.add_velocity (f.ix i j) vx vy) := by
  refine ⟨rfl, ?_⟩
  intro x y hx hy hbord
  dsimp only [Fluid.add_velocity, Fluid.ix] at hx hy hbord ⊢
  obtain ⟨d1, d2, d3, d4, d5, d6⟩ := hb x y hx hy hbord
  refine ⟨d1, d2, d3, ?_, d5, ?_⟩ <;>
    · rw [getD_set_interior hn hi1 hi2 hj1 hj2 hx hy hbord]
      first
      | exact d4
      | exact d6

lemma new_borders_zero (c : FluidConfig) : BordersZero (Fluid.new c) := by
  intro x y hx hy hbord
  exact ⟨getD_replicate_zero _ _, getD_replicate_zero _ _, getD_replicate_zero _ _,
    getD_replicate_zero _ _, getD_replicate_zero _ _, getD_replicate_zero _ _⟩

/-- C8: starting from a freshly constructed simulation (`n ≤ 253`, so no
`u16` wrap affects indexing), after any sequence of source injections at
interior cells and `step()` calls, every border cell of the density and
velocity buffers (current and initial) holds exactly `0`: the diffusion and
advection passes write only interior cells `x, y ∈ [1, n]`. -/
theorem border_cells_remain_zero (n : ℕ) (hn : n ≤ 253) (d : ℚ)
    (ops : List FluidOp) (hops : ∀ op ∈ ops, op.interior n) :
    BordersZero (ops.foldl FluidOp.apply (Fluid.new (FluidConfig.new n d))) := by
  have h := foldl_invariant
    (fun g => g.config = FluidConfig.new n d ∧ BordersZero g) FluidOp.apply ops
    (Fluid.new (FluidConfig.new n d)) ⟨rfl, new_borders_zero _⟩ ?_
  · exact h.2
  intro g op hop hg
  obtain ⟨hc, hbz⟩ := hg
  have hgn : g.config.n = n := by rw [hc]; rfl
  have hgn' : g.config.n ≤ 253 := by rw [hgn]; exact hn
  cases op with
  | addDensity i j v =>
    obtain ⟨h1, h2, h3, h4⟩ := hops _ hop
    obtain ⟨c', b'⟩ := add_density_interior_preserves hgn'
      h1 (by rw [hgn]; exact h2) h3 (by rw [hgn]; exact h4) v hbz
    exact ⟨by rw [FluidOp.apply]; rw [c', hc], b'⟩
  | addVelocity i j vx vy =>
    obtain ⟨h1, h2, h3, h4⟩ := hops _ hop
    obtain ⟨c', b'⟩ := add_velocity_interior_preserves hgn'
      h1 (by rw [hgn]; exact h2) h3 (by rw [hgn]; exact h4) vx vy hbz
    exact ⟨by rw [FluidOp.apply]; rw [c', hc], b'⟩
  | step =>
    obtain ⟨c', b'⟩ := simulate_preserves hgn' hbz
    exact ⟨by rw [FluidOp.apply]; rw [c', hc], b'⟩

/-- C8 witness: inject density 100 at interior cell `(2,2)` of the `n = 3`,
`diffusion = 1` simulation and run one step; all border cells stay `0`. -/
theorem border_cells_remain_zero_witness :
    3 ≤ 253
    ∧ (∀ op ∈ [FluidOp.addDensity 2 2 100, FluidOp.step], op.interior 3)
    ∧ BordersZero
        ([FluidOp.addDensity 2 2 100, FluidOp.step].foldl FluidOp.apply
          (Fluid.new (FluidConfig.new 3 1))) :=
  ⟨by decide, by decide,
    border_cells_remain_zero 3 (by decide) 1
      [FluidOp.addDensity 2 2 100, FluidOp.step] (by decide)⟩

end FluidSim
